import Mathlib

/-!
Shallow embedding of the request-execution core of `teloxide-core`
(src/src/bot.rs, src/src/payloads/get_user_profile_photos.rs,
src/src/payloads/send_media_group.rs) together with the parts of the
repository those files reference but that are not present in the source
drop (the endpoint resolver, the multipart encoder, the environment
bootstrap); the missing parts are modelled from the specification and are
marked as such in their doc comments.
-/

namespace Teloxide

/-- URLs are modelled by their textual form (reqwest::Url as a string). -/
abbrev Url := String

/-- Modelled from the spec: the endpoint mode `ApiUrl` lives in
src/bot/api_url.rs, which is not under src/. Spec section 3: EndpointMode
is a variant over Default and Custom(base_url); the Custom base is shared
by reference count, which at the value level means the URL itself. -/
inductive ApiUrl where
  | Default : ApiUrl
  | Custom : Url → ApiUrl
deriving DecidableEq, Repr

/-- Modelled from the spec: section 4.2 says the Default mode produces the
platform base url, the bot-platform default. -/
def defaultApiUrl : Url := "https://api.telegram.org"

/-- Modelled from the spec: `ApiUrl::get` resolves the mode to a concrete
base URL; resolution is pure (spec section 3) and the Custom mode
substitutes the stored base verbatim. -/
def ApiUrl.get : ApiUrl → Url
  | .Default => defaultApiUrl
  | .Custom u => u

/-- The configuration accumulated by `reqwest::ClientBuilder`, restricted
to the settings the repository actually touches in `sound_bot`
(src/src/bot.rs lines 248-260) plus the proxy used by the environment
bootstrap. Timeouts are in whole seconds, as in the source. -/
structure ClientBuilder where
  connectTimeoutSecs : Option Nat := none
  timeoutSecs : Option Nat := none
  tcpNodelay : Bool := false
  defaultHeaders : List (String × String) := []
  proxy : Option String := none
deriving DecidableEq, Repr

/-- A built `reqwest::Client`: the frozen builder configuration plus a
handle to an internal connection pool. reqwest documents `Client` as an
internally reference-counted handle, so the pool is identified by a number
and duplicating the handle never produces a new pool. -/
structure Client where
  connectTimeoutSecs : Option Nat
  timeoutSecs : Option Nat
  tcpNodelay : Bool
  defaultHeaders : List (String × String)
  proxy : Option String
  poolId : Nat
deriving DecidableEq, Repr

def ClientBuilder.new : ClientBuilder := {}

def ClientBuilder.connect_timeout (b : ClientBuilder) (secs : Nat) : ClientBuilder :=
  { b with connectTimeoutSecs := some secs }

def ClientBuilder.timeout (b : ClientBuilder) (secs : Nat) : ClientBuilder :=
  { b with timeoutSecs := some secs }

def ClientBuilder.tcp_nodelay (b : ClientBuilder) (v : Bool) : ClientBuilder :=
  { b with tcpNodelay := v }

def ClientBuilder.default_headers (b : ClientBuilder) (hs : List (String × String)) : ClientBuilder :=
  { b with defaultHeaders := hs }

def ClientBuilder.set_proxy (b : ClientBuilder) (p : String) : ClientBuilder :=
  { b with proxy := some p }

/-- `ClientBuilder::build`: freezes the configuration into a client whose
connection pool is freshly allocated; the fresh pool identifier is supplied
by the environment. Build failure is a fatal configuration condition
handled at the call sites, not here. -/
def ClientBuilder.build (b : ClientBuilder) (freshPool : Nat) : Client :=
  { connectTimeoutSecs := b.connectTimeoutSecs
    timeoutSecs := b.timeoutSecs
    tcpNodelay := b.tcpNodelay
    defaultHeaders := b.defaultHeaders
    proxy := b.proxy
    poolId := freshPool }

/-- `Client::clone` (reqwest): duplicating the handle shares the single
internal connection pool, so at the value level it is the identity; in
particular the `poolId` of the duplicate equals the original's. -/
def Client.clone (c : Client) : Client := c

/-- `sound_bot` from src/src/bot.rs lines 248-260: keep-alive header,
connect timeout of 5 seconds, total timeout of connect + 10 + 2 seconds,
TCP nodelay. -/
def sound_bot : ClientBuilder :=
  let headers : List (String × String) := [("Connection", "keep-alive")]
  let connect_timeout : Nat := 5
  let timeout : Nat := 10
  ((((ClientBuilder.new.connect_timeout connect_timeout).timeout
      (connect_timeout + timeout + 2)).tcp_nodelay true).default_headers headers)

/-- `build_sound_bot` from src/src/bot.rs lines 262-264. -/
def build_sound_bot (freshPool : Nat) : Client :=
  sound_bot.build freshPool

/-- The `Bot` client identity from src/src/bot.rs lines 60-65: token,
endpoint mode and transport handle. The token's `Arc<str>` is modelled by
the string value it dereferences to. -/
structure Bot where
  token : String
  api_url : ApiUrl
  client : Client
deriving DecidableEq, Repr

/-- `Bot::with_client` from src/src/bot.rs lines 91-100: stores the token
as given, the caller's client verbatim, and the Default endpoint mode. -/
def Bot.with_client (token : String) (client : Client) : Bot :=
  { token := token, api_url := ApiUrl.Default, client := client }

/-- `Bot::new` from src/src/bot.rs lines 75-80: `with_client` applied to
the token and the default sound transport. -/
def Bot.new (token : String) (freshPool : Nat) : Bot :=
  Bot.with_client token (build_sound_bot freshPool)

/-- `Bot::set_api_url` from src/src/bot.rs lines 175-178: consumes the
identity and returns it with the endpoint mode replaced by Custom. -/
def Bot.set_api_url (b : Bot) (url : Url) : Bot :=
  { b with api_url := ApiUrl.Custom url }

/-- The `Bot::api_url()` getter from src/src/bot.rs lines 194-196: resolves
the stored endpoint mode to a concrete URL via `ApiUrl::get`. -/
def Bot.resolved_api_url (b : Bot) : Url :=
  b.api_url.get

/-- `Bot::clone`, derived in src/src/bot.rs line 60: clones the token Arc
(same string), the endpoint mode, and the client handle (shared pool). -/
def Bot.clone (b : Bot) : Bot :=
  { token := b.token, api_url := b.api_url, client := b.client.clone }

/-- Iterated duplication: the n-th successive clone of an identity. -/
def Bot.cloneN (b : Bot) : Nat → Bot
  | 0 => b
  | n + 1 => (Bot.cloneN b n).clone

/-- The recoverable error channel `RequestError` (spec sections 3 and 7):
network failure, malformed envelope, API-level rejection with structured
detail, and the multipart construction error surfaced by the encoder. -/
inductive RequestError where
  | Network (detail : String)
  | InvalidJson (body : String)
  | Api (error_code : Int) (description : String) (retry_after : Option Nat)
  | MultipartBuild (detail : String)
deriving DecidableEq, Repr

/-- `ResponseResult<T>` = `Ok(T) | Err(RequestError)` (spec section 3). -/
abbrev ResponseResult (α : Type) := Except RequestError α

/-- A serialized JSON body, `Vec<u8>` in the source, modelled as bytes. -/
abbrev ByteBody := List Nat

/-- The observable outcome of running one of the execute entry points: the
call either dies by panic (the fatal, non-recoverable channel) or returns a
`ResponseResult` to the caller. -/
inductive ExecOutcome (α : Type) where
  | panicked (msg : String)
  | returned (r : ResponseResult α)

/-- `Bot::execute_json` from src/src/bot.rs lines 200-218. The source
serializes the payload with `serde_json::to_vec` and calls
`.expect("serialization of request to be infallible")` on the result: a
failed serialization (here `none`) panics before anything is sent, and a
successful one proceeds to `net::request_json` with the cloned client,
token, resolved endpoint, method name and body. `net::request_json` is not
under src/, so the send-and-decode stage is the abstract argument `net`. -/
def Bot.execute_json {Output : Type} (b : Bot)
    (serialized : Option ByteBody)
    (net : Client → String → Url → String → ByteBody → ResponseResult Output)
    (methodName : String) : ExecOutcome Output :=
  match serialized with
  | none => ExecOutcome.panicked "serialization of request to be infallible"
  | some params =>
      ExecOutcome.returned (net b.client b.token b.api_url.get methodName params)

/-- Modelled from the spec: the error type of the multipart encoder
(`serde_multipart`, not under src/); spec section 4.3 says building the
form may fail, for example on an unreadable file part. -/
inductive MultipartError where
  | Io (detail : String)
  | Json (detail : String)
deriving DecidableEq, Repr

/-- Modelled from the spec: the conversion the `?` operator applies when an
encoder error is returned through `ResponseResult` — a construction error
distinct from a transport error (spec section 4.3). -/
def MultipartError.intoRequestError : MultipartError → RequestError
  | .Io d => RequestError.MultipartBuild d
  | .Json d => RequestError.InvalidJson d

/-- A built multipart form: an ordered sequence of named parts
(spec section 3, EncodedRequest). -/
structure Form where
  parts : List (String × String)
deriving DecidableEq, Repr

/-- `Bot::execute_multipart` from src/src/bot.rs lines 220-239. The source
awaits `serde_multipart::to_form(payload)` (a fallible step, here the
`formResult` argument) and applies `?`: an encoder error is converted and
returned through `ResponseResult` without dispatching any request, and a
built form is handed to `net::request_multipart` (not under src/, the
abstract argument `net`). The second component counts the HTTP requests
dispatched by the call. -/
def Bot.execute_multipart {Output : Type} (b : Bot)
    (formResult : Except MultipartError Form)
    (net : Client → String → Url → String → Form → ResponseResult Output)
    (methodName : String) : ResponseResult Output × Nat :=
  match formResult with
  | .error e => (Except.error e.intoRequestError, 0)
  | .ok params =>
      (net b.client b.token b.api_url.get methodName params, 1)

/-- An environment: a partial map from variable names to values. -/
abbrev Env := String → Option String

/-- The constant `TELOXIDE_TOKEN` from src/src/bot.rs line 20. -/
def TELOXIDE_TOKEN : String := "TELOXIDE_TOKEN"

/-- The constant `TELOXIDE_PROXY` from src/src/bot.rs line 21. -/
def TELOXIDE_PROXY : String := "TELOXIDE_PROXY"

/-- A computation that either panics fatally or produces a value. -/
inductive FatalOr (α : Type) where
  | panicked (msg : String)
  | ok (a : α)
deriving DecidableEq, Repr

/-- `get_env` from src/src/bot.rs lines 266-268: reads the variable and
panics with a diagnostic message when it is absent. -/
def get_env (env : Env) (name : String) : FatalOr String :=
  match env name with
  | some v => FatalOr.ok v
  | none => FatalOr.panicked ("Cannot get the " ++ name ++ " env variable")

/-- `Bot::from_env_with_client` from src/src/bot.rs lines 132-134:
`with_client` applied to `get_env(TELOXIDE_TOKEN)` and the caller's
client; the panic of `get_env` propagates. -/
def Bot.from_env_with_client (env : Env) (client : Client) : FatalOr Bot :=
  match get_env env TELOXIDE_TOKEN with
  | FatalOr.panicked m => FatalOr.panicked m
  | FatalOr.ok t => FatalOr.ok (Bot.with_client t client)

/-- Modelled from the spec: `net::client_from_env` is not under src/;
spec section 6 says a token string and optional proxy URL are read from
named environment variables, and src/src/bot.rs lines 102-108 document
that the `TELOXIDE_PROXY` value is passed to a proxy setting on the
default sound client when present. -/
def client_from_env (env : Env) (freshPool : Nat) : Client :=
  match env TELOXIDE_PROXY with
  | some p => (sound_bot.set_proxy p).build freshPool
  | none => build_sound_bot freshPool

/-- `Bot::from_env` from src/src/bot.rs lines 116-118. -/
def Bot.from_env (env : Env) (freshPool : Nat) : FatalOr Bot :=
  Bot.from_env_with_client env (client_from_env env freshPool)

/-- JSON values, for the wire encoding of payloads. -/
inductive Json where
  | null
  | bool (b : Bool)
  | num (n : Int)
  | str (s : String)
  | arr (xs : List Json)
  | obj (fields : List (String × Json))

/-- The keys of a top-level JSON object (empty for non-objects). -/
def Json.topKeys : Json → List String
  | .obj fields => fields.map Prod.fst
  | _ => []

/-- The values of a top-level JSON object (empty for non-objects). -/
def Json.topValues : Json → List Json
  | .obj fields => fields.map Prod.snd
  | _ => []

/-- One optional JSON object field: absent when the value is unset,
a single key-value pair when set. -/
def optField {α : Type} (key : String) (enc : α → Json) : Option α → List (String × Json)
  | none => []
  | some v => [(key, enc v)]

/-- `GetUserProfilePhotos` from src/src/payloads/get_user_profile_photos.rs
lines 13-24: required `user_id: i64`, optional `offset: u32` and
`limit: u8`. Machine integers are modelled as Int and Nat. -/
structure GetUserProfilePhotos where
  user_id : Int
  offset : Option Nat
  limit : Option Nat
deriving DecidableEq, Repr

/-- The generated constructor of `GetUserProfilePhotos`: the required
field is taken as an argument, the optional fields start unset. -/
def GetUserProfilePhotos.new (user_id : Int) : GetUserProfilePhotos :=
  { user_id := user_id, offset := none, limit := none }

/-- Modelled from the spec: the Serialize implementation generated by the
`impl_payload!` macro (the macro definition is not under src/). Spec
section 4.3: required fields always serialize, optional fields serialize
only if set, and absent optionals are omitted, not emitted as null; field
names map 1:1 to wire keys. -/
def GetUserProfilePhotos.toJson (p : GetUserProfilePhotos) : Json :=
  Json.obj ([("user_id", Json.num p.user_id)]
    ++ optField "offset" (fun v => Json.num v) p.offset
    ++ optField "limit" (fun v => Json.num v) p.limit)

/-- `ChatId` from the types module (not under src/): a numeric chat
identifier or a channel username, serialized untagged. -/
inductive ChatId where
  | Id (i : Int)
  | ChannelUsername (s : String)
deriving DecidableEq, Repr

/-- Untagged serialization of `ChatId`. -/
def ChatId.toJson : ChatId → Json
  | .Id i => Json.num i
  | .ChannelUsername s => Json.str s

/-- `InputMedia` items (from the types module, not under src/) are
modelled by their JSON wire form, which is all their serialization uses. -/
abbrev InputMedia := Json

/-- `SendMediaGroup` from src/src/payloads/send_media_group.rs lines
13-29: required `chat_id` and `media: Vec<InputMedia>`, optional
`disable_notification: bool`, `reply_to_message_id: i32`,
`allow_sending_without_reply: bool`. The media vector is a plain list
with no length constraint in the type. -/
structure SendMediaGroup where
  chat_id : ChatId
  media : List InputMedia
  disable_notification : Option Bool
  reply_to_message_id : Option Int
  allow_sending_without_reply : Option Bool

/-- The generated constructor of `SendMediaGroup`: the required fields are
taken as arguments (`media` through `[collect]`, accepting any sequence of
items of any length), the optional fields start unset. -/
def SendMediaGroup.new (chat_id : ChatId) (media : List InputMedia) : SendMediaGroup :=
  { chat_id := chat_id, media := media, disable_notification := none,
    reply_to_message_id := none, allow_sending_without_reply := none }

/-- The generated setter for the `media` field (named `media` in the
source's setters trait; renamed here because the field accessor takes that
name): a pure builder operation replacing the vector with the collected
items, with no length validation. -/
def SendMediaGroup.with_media (p : SendMediaGroup) (m : List InputMedia) : SendMediaGroup :=
  { p with media := m }

/-- Modelled from the spec: the Serialize implementation generated by the
`impl_payload!` macro (not under src/), as for `GetUserProfilePhotos`:
required fields first, then only the set optional fields, absent optionals
omitted rather than null. -/
def SendMediaGroup.toJson (p : SendMediaGroup) : Json :=
  Json.obj ([("chat_id", p.chat_id.toJson), ("media", Json.arr p.media)]
    ++ optField "disable_notification" Json.bool p.disable_notification
    ++ optField "reply_to_message_id" (fun v => Json.num v) p.reply_to_message_id
    ++ optField "allow_sending_without_reply" Json.bool p.allow_sending_without_reply)

/-- A concrete client built with the default sound configuration. -/
def client0 : Client := build_sound_bot 0

/-- C1 counterexample: the claim quantifies over every identity A and
every URL u and asserts `A.resolved_base() != u` unconditionally; it fails
when A already resolves to u, for example when A was itself produced by
`set_api_url` with the same URL. -/
theorem C1_counterexample :
    ¬ (((Bot.with_client "TOKEN" client0).set_api_url "https://example.com/").resolved_api_url
          ≠ "https://example.com/"
       ∧ ((((Bot.with_client "TOKEN" client0).set_api_url "https://example.com/").set_api_url
            "https://example.com/").resolved_api_url = "https://example.com/")) :=
  fun h => h.1 rfl

/-- C1 (amended): for every identity A and URL u such that A does not
already resolve its base to u, B = A.set_api_url(u) resolves to u while A
still resolves to its old base; only the endpoint field differs between A
and B (token and client are unchanged), and a duplicate of A taken before
the call keeps A's old endpoint. -/
theorem C1_set_api_url_frame (A : Bot) (u : Url) (h : A.resolved_api_url ≠ u) :
    A.resolved_api_url ≠ u
    ∧ (A.set_api_url u).resolved_api_url = u
    ∧ (A.set_api_url u).token = A.token
    ∧ (A.set_api_url u).client = A.client
    ∧ A.clone.resolved_api_url = A.resolved_api_url
    ∧ A.clone.resolved_api_url ≠ u :=
  ⟨h, rfl, rfl, rfl, rfl, h⟩

/-- C1 witness: the amended statement at a fresh identity and the URL
`https://example.com/`, which differs from the default base. -/
theorem C1_set_api_url_frame_witness :
    (Bot.with_client "TOKEN" client0).resolved_api_url ≠ "https://example.com/"
    ∧ ((Bot.with_client "TOKEN" client0).set_api_url "https://example.com/").resolved_api_url
        = "https://example.com/"
    ∧ ((Bot.with_client "TOKEN" client0).set_api_url "https://example.com/").token
        = (Bot.with_client "TOKEN" client0).token
    ∧ ((Bot.with_client "TOKEN" client0).set_api_url "https://example.com/").client
        = (Bot.with_client "TOKEN" client0).client
    ∧ (Bot.with_client "TOKEN" client0).clone.resolved_api_url
        = (Bot.with_client "TOKEN" client0).resolved_api_url
    ∧ (Bot.with_client "TOKEN" client0).clone.resolved_api_url ≠ "https://example.com/" :=
  C1_set_api_url_frame (Bot.with_client "TOKEN" client0) "https://example.com/" (by decide)

/-- C2: in `execute_json`, a failed payload serialization panics with the
source's assertion message and is never surfaced to the caller through the
`ResponseResult` error channel; a successful serialization makes the panic
branch unreachable and the call proceeds to resolve the endpoint, send and
decode. -/
theorem C2_execute_json_serialization_fatal {Output : Type} (b : Bot)
    (net : Client → String → Url → String → ByteBody → ResponseResult Output)
    (m : String) :
    b.execute_json none net m
        = ExecOutcome.panicked "serialization of request to be infallible"
    ∧ (∀ r : ResponseResult Output, b.execute_json none net m ≠ ExecOutcome.returned r)
    ∧ (∀ params : ByteBody,
        b.execute_json (some params) net m
          = ExecOutcome.returned (net b.client b.token b.api_url.get m params)) :=
  ⟨rfl, fun _ h => ExecOutcome.noConfusion h, fun _ => rfl⟩

/-- A concrete send-and-decode stage for JSON requests, answering Ok 0. -/
def netJson0 : Client → String → Url → String → ByteBody → ResponseResult Nat :=
  fun _ _ _ _ _ => Except.ok 0

/-- C2 witness: the statement at a fresh identity, the concrete
send-and-decode stage `netJson0` and the method name getMe. -/
theorem C2_execute_json_serialization_fatal_witness :
    (Bot.with_client "TOKEN" client0).execute_json none netJson0 "getMe"
        = ExecOutcome.panicked "serialization of request to be infallible"
    ∧ (∀ r : ResponseResult Nat,
        (Bot.with_client "TOKEN" client0).execute_json none netJson0 "getMe"
          ≠ ExecOutcome.returned r)
    ∧ (∀ params : ByteBody,
        (Bot.with_client "TOKEN" client0).execute_json (some params) netJson0 "getMe"
          = ExecOutcome.returned
              (netJson0 (Bot.with_client "TOKEN" client0).client
                (Bot.with_client "TOKEN" client0).token
                (Bot.with_client "TOKEN" client0).api_url.get "getMe" params)) :=
  C2_execute_json_serialization_fatal (Bot.with_client "TOKEN" client0) netJson0 "getMe"

/-- C3: in `execute_multipart`, a failure of the form-construction step is
returned recoverably through the `ResponseResult` error channel and no
HTTP request is dispatched; only on successful construction is the request
sent (exactly one) and its result decoded. -/
theorem C3_execute_multipart_build_failure_recoverable {Output : Type} (b : Bot)
    (net : Client → String → Url → String → Form → ResponseResult Output)
    (m : String) :
    (∀ e : MultipartError,
      b.execute_multipart (Except.error e) net m = (Except.error e.intoRequestError, 0))
    ∧ (∀ f : Form,
        b.execute_multipart (Except.ok f) net m
          = (net b.client b.token b.api_url.get m f, 1)) :=
  ⟨fun _ => rfl, fun _ => rfl⟩

/-- A concrete send-and-decode stage for multipart requests. -/
def netMultipart0 : Client → String → Url → String → Form → ResponseResult Nat :=
  fun _ _ _ _ _ => Except.ok 0

/-- C3 witness: the statement at a fresh identity, the concrete
send-and-decode stage `netMultipart0` and the method name sendMediaGroup. -/
theorem C3_execute_multipart_build_failure_recoverable_witness :
    (∀ e : MultipartError,
      (Bot.with_client "TOKEN" client0).execute_multipart (Except.error e) netMultipart0
          "sendMediaGroup"
        = (Except.error e.intoRequestError, 0))
    ∧ (∀ f : Form,
        (Bot.with_client "TOKEN" client0).execute_multipart (Except.ok f) netMultipart0
            "sendMediaGroup"
          = (netMultipart0 (Bot.with_client "TOKEN" client0).client
              (Bot.with_client "TOKEN" client0).token
              (Bot.with_client "TOKEN" client0).api_url.get "sendMediaGroup" f, 1)) :=
  C3_execute_multipart_build_failure_recoverable (Bot.with_client "TOKEN" client0)
    netMultipart0 "sendMediaGroup"

/-- C4: the JSON encoding of a payload serializes required fields always
and omits every unset optional field entirely — an optional key appears in
the object exactly when the field is set, and no top-level value is ever
null; shown for `GetUserProfilePhotos` and `SendMediaGroup`. -/
theorem C4_json_omits_unset_optionals (p : GetUserProfilePhotos) (q : SendMediaGroup) :
    ("user_id" ∈ p.toJson.topKeys
      ∧ (("offset" ∈ p.toJson.topKeys) ↔ p.offset.isSome)
      ∧ (("limit" ∈ p.toJson.topKeys) ↔ p.limit.isSome)
      ∧ Json.null ∉ p.toJson.topValues)
    ∧ ("chat_id" ∈ q.toJson.topKeys
      ∧ "media" ∈ q.toJson.topKeys
      ∧ (("disable_notification" ∈ q.toJson.topKeys) ↔ q.disable_notification.isSome)
      ∧ (("reply_to_message_id" ∈ q.toJson.topKeys) ↔ q.reply_to_message_id.isSome)
      ∧ (("allow_sending_without_reply" ∈ q.toJson.topKeys)
          ↔ q.allow_sending_without_reply.isSome)
      ∧ Json.null ∉ q.toJson.topValues) := by
  constructor
  · rcases p with ⟨uid, off, lim⟩
    cases off <;> cases lim <;>
      simp [GetUserProfilePhotos.toJson, Json.topKeys, Json.topValues, optField]
  · rcases q with ⟨cid, med, dn, rp, asw⟩
    cases cid <;> cases dn <;> cases rp <;> cases asw <;>
      simp [SendMediaGroup.toJson, Json.topKeys, Json.topValues, optField, ChatId.toJson]

/-- C4 witness: the statement at the two concrete payloads with all
optional fields unset. -/
theorem C4_json_omits_unset_optionals_witness :
    ("user_id" ∈ (GetUserProfilePhotos.new 7).toJson.topKeys
      ∧ (("offset" ∈ (GetUserProfilePhotos.new 7).toJson.topKeys)
          ↔ (GetUserProfilePhotos.new 7).offset.isSome)
      ∧ (("limit" ∈ (GetUserProfilePhotos.new 7).toJson.topKeys)
          ↔ (GetUserProfilePhotos.new 7).limit.isSome)
      ∧ Json.null ∉ (GetUserProfilePhotos.new 7).toJson.topValues)
    ∧ ("chat_id" ∈ (SendMediaGroup.new (ChatId.Id 1) []).toJson.topKeys
      ∧ "media" ∈ (SendMediaGroup.new (ChatId.Id 1) []).toJson.topKeys
      ∧ (("disable_notification" ∈ (SendMediaGroup.new (ChatId.Id 1) []).toJson.topKeys)
          ↔ (SendMediaGroup.new (ChatId.Id 1) []).disable_notification.isSome)
      ∧ (("reply_to_message_id" ∈ (SendMediaGroup.new (ChatId.Id 1) []).toJson.topKeys)
          ↔ (SendMediaGroup.new (ChatId.Id 1) []).reply_to_message_id.isSome)
      ∧ (("allow_sending_without_reply" ∈ (SendMediaGroup.new (ChatId.Id 1) []).toJson.topKeys)
          ↔ (SendMediaGroup.new (ChatId.Id 1) []).allow_sending_without_reply.isSome)
      ∧ Json.null ∉ (SendMediaGroup.new (ChatId.Id 1) []).toJson.topValues) :=
  C4_json_omits_unset_optionals (GetUserProfilePhotos.new 7) (SendMediaGroup.new (ChatId.Id 1) [])

/-- C5: the default transport configuration `sound_bot` sets a connect
timeout of exactly 5 seconds and a total timeout of connect + 10 + 2 = 17
seconds, with the keep-alive header among the default headers; the built
client carries exactly this configuration, frozen at construction time. -/
theorem C5_sound_bot_timeouts :
    sound_bot.connectTimeoutSecs = some 5
    ∧ sound_bot.timeoutSecs = some (5 + 10 + 2)
    ∧ sound_bot.timeoutSecs = some 17
    ∧ ("Connection", "keep-alive") ∈ sound_bot.defaultHeaders
    ∧ (∀ freshPool : Nat,
        (build_sound_bot freshPool).connectTimeoutSecs = some 5
        ∧ (build_sound_bot freshPool).timeoutSecs = some 17
        ∧ ("Connection", "keep-alive") ∈ (build_sound_bot freshPool).defaultHeaders) :=
  ⟨rfl, rfl, rfl, List.mem_singleton.mpr rfl,
    fun _ => ⟨rfl, rfl, List.mem_singleton.mpr rfl⟩⟩

/-- C6: building an identity from the environment is fatal when the
TELOXIDE_TOKEN variable is absent — the call panics with a diagnostic
message instead of returning a recoverable error value — and when the
variable is present the identity is built with that token. -/
theorem C6_from_env_token_fatality (env : Env) (c : Client) (freshPool : Nat) :
    (env TELOXIDE_TOKEN = none →
      Bot.from_env_with_client env c
          = FatalOr.panicked "Cannot get the TELOXIDE_TOKEN env variable"
        ∧ Bot.from_env env freshPool
          = FatalOr.panicked "Cannot get the TELOXIDE_TOKEN env variable")
    ∧ (∀ t : String, env TELOXIDE_TOKEN = some t →
        Bot.from_env_with_client env c = FatalOr.ok (Bot.with_client t c)
        ∧ Bot.from_env env freshPool
          = FatalOr.ok (Bot.with_client t (client_from_env env freshPool))) := by
  refine ⟨fun h => ?_, fun t h => ?_⟩
  · have h2 : env "TELOXIDE_TOKEN" = none := h
    constructor <;>
      simp [Bot.from_env, Bot.from_env_with_client, get_env, h2, TELOXIDE_TOKEN]
  · have h2 : env "TELOXIDE_TOKEN" = some t := h
    constructor <;>
      simp [Bot.from_env, Bot.from_env_with_client, get_env, h2, TELOXIDE_TOKEN]

/-- An environment with no variables set. -/
def envEmpty : Env := fun _ => none

/-- An environment holding only the token variable. -/
def envToken : Env := fun name => if name = "TELOXIDE_TOKEN" then some "123:abc" else none

/-- C6 witness: the absent-variable half at the empty environment and the
present-variable half at an environment holding a concrete token. -/
theorem C6_from_env_token_fatality_witness :
    Bot.from_env_with_client envEmpty client0
        = FatalOr.panicked "Cannot get the TELOXIDE_TOKEN env variable"
    ∧ Bot.from_env_with_client envToken client0
        = FatalOr.ok (Bot.with_client "123:abc" client0) :=
  ⟨((C6_from_env_token_fatality envEmpty client0 0).1 rfl).1,
    ((C6_from_env_token_fatality envToken client0 0).2 "123:abc" (by decide)).1⟩

/-- C7: `with_client` stores the caller-supplied transport verbatim with
no default configuration re-applied, stores the token as given, and sets
the endpoint mode to Default; `new` equals `with_client` applied to the
token and the default sound transport. -/
theorem C7_with_client_verbatim (t : String) (c : Client) :
    (Bot.with_client t c).client = c
    ∧ (Bot.with_client t c).token = t
    ∧ (Bot.with_client t c).api_url = ApiUrl.Default
    ∧ (∀ freshPool : Nat, Bot.new t freshPool = Bot.with_client t (build_sound_bot freshPool)) :=
  ⟨rfl, rfl, rfl, fun _ => rfl⟩

/-- C8: duplicating an identity never duplicates the transport's
connection pool — after any number of successive clones the client handle,
and in particular its pool identifier, is the original's, and the token
and endpoint values are preserved. -/
theorem C8_clone_shares_pool (b : Bot) (n : Nat) :
    (b.cloneN n).client.poolId = b.client.poolId
    ∧ (b.cloneN n).client = b.client
    ∧ (b.cloneN n).token = b.token
    ∧ (b.cloneN n).api_url = b.api_url := by
  induction n with
  | zero => exact ⟨rfl, rfl, rfl, rfl⟩
  | succ k ih => simpa [Bot.cloneN, Bot.clone, Client.clone] using ih

/-- C9: the public token getter returns exactly the full token string the
identity was built with, unchanged by `set_api_url` and by cloning. -/
theorem C9_token_retrievable (s : String) (c : Client) (u : Url) (freshPool : Nat) :
    (Bot.with_client s c).token = s
    ∧ (Bot.new s freshPool).token = s
    ∧ ((Bot.with_client s c).set_api_url u).token = s
    ∧ (Bot.with_client s c).clone.token = s
    ∧ ((Bot.new s freshPool).set_api_url u).clone.token = s :=
  ⟨rfl, rfl, rfl, rfl, rfl⟩

/-- C10: constructing a `SendMediaGroup` accepts a media vector of any
length — the 2-10 item constraint from the field's documentation is not
enforced by the type, its constructor, or its setter: every list is stored
verbatim, and payloads with 0 or 11 items are representable. -/
theorem C10_media_length_unvalidated (c : ChatId) (m : List InputMedia) :
    (SendMediaGroup.new c m).media = m
    ∧ (∀ p : SendMediaGroup, (p.with_media m).media = m)
    ∧ (∀ n : Nat, ∃ p : SendMediaGroup, p.media.length = n)
    ∧ (SendMediaGroup.new c []).media.length = 0
    ∧ (SendMediaGroup.new c (List.replicate 11 Json.null)).media.length = 11 := by
  refine ⟨rfl, fun p => rfl, fun n => ⟨SendMediaGroup.new (ChatId.Id 0)
    (List.replicate n Json.null), ?_⟩, rfl, ?_⟩ <;>
    simp [SendMediaGroup.new]

end Teloxide
